import Mathlib

/-!
Verification of the request-translation, configuration-resolution and
error-mapping core of the `typingmind-to-pinecone` service.

The definitions below are a shallow embedding of the JavaScript source:

* `translateRequest`, `queryFor`, `buildRerank`, `buildMetadata` embed the body of
  `app.post('/pinecone-query')` from `src/unnamed/part_000` lines 39-190
  (the same translation logic appears in `src/unnamed/part_001` lines
  165-318 and `src/unnamed/part_002` lines 223-444).
* `resolveFirst` embeds the candidate-name loops of
  `src/unnamed/part_003` lines 150-188 (the `||`-chains of
  `src/unnamed/part_002` lines 248-254 have the same first-truthy
  semantics).
* `normalizeHost` embeds the host clean-up of `src/unnamed/part_003`
  lines 182-184 and `src/unnamed/part_002` lines 257-259.
* `mapPineconeErrorV1` embeds the catch block of `src/unnamed/part_000`
  lines 192-225; `mapPineconeErrorV2` embeds the catch block of
  `src/unnamed/part_002` lines 446-495, which adds the `ECONNABORTED`
  (timeout) branch.
* `runNamespaceTests` embeds the `for` loop of `app.get('/test-namespaces')`
  in `src/unnamed/part_002` lines 499-552.

Modelling conventions: JavaScript values reaching the handler are modelled
by `JSValue`; JS numbers are modelled as `Int` (no claim depends on
fractional values, `NaN` or `-0`); JS truthiness is `isTruthy`.  Request
fields that the handler destructures with defaults are modelled by a
structure whose fields already carry the defaulted shape (`fields := []`
etc.), matching the destructuring on `part_000` lines 41-49.  The outbound
HTTP machinery (axios) is opaque: a provider call is made exactly when
`translateRequest` returns `.ok`, and provider outcomes are supplied as values of
`AxiosError` / `AxiosResponse`.  Timestamps and the request URL string are
outside the modelled slice.
-/

/-- A JavaScript value as seen by the request handler.  Numbers are
modelled as `Int`. -/
inductive JSValue where
  | undefined
  | null
  | bool (b : Bool)
  | num (n : Int)
  | str (s : String)
  | arr (elems : List JSValue)
  | obj (fields : List (String × JSValue))

/-- JS truthiness (`if (x)`).  `NaN` is not modelled. -/
def isTruthy : JSValue → Bool
  | .undefined => false
  | .null => false
  | .bool b => b
  | .num n => decide (n ≠ 0)
  | .str s => decide (s ≠ "")
  | .arr _ => true
  | .obj _ => true

/-- `typeof v === 'number'`. -/
def isNumberJS : JSValue → Bool
  | .num _ => true
  | _ => false

/-- Property lookup on a JS object (`v.k`), `none` when absent or the
value is not an object. -/
def JSValue.getField : JSValue → String → Option JSValue
  | .obj fs, k => fs.lookup k
  | _, _ => none

/-- The `rerank` object of a request, as destructured by the handler
(`part_000` line 47 and lines 146-158).  Each field is `none` when the
client did not supply it. -/
structure RerankSpec where
  model : Option String
  top_n : Option Int
  rank_fields : Option (List String)
  query : Option JSValue

/-- The client request after the destructuring with defaults on
`part_000` lines 41-49.  `nspace` renders the source's `namespace`
field (a reserved word in Lean). -/
structure SearchRequest where
  query : JSValue
  nspace : String := "__default__"
  top_k : Int := 10
  fields : List String := []
  filters : List (String × JSValue) := []
  rerank : Option RerankSpec := none
  search_type : String := "text"

/-- The validation failures of the `/pinecone-query` handler; each is
returned with HTTP status 400 (`part_000` lines 66-75, 99-103, 113-117,
127-131, 139-143). -/
inductive TranslateError where
  | queryRequired
  | textTypeMismatch
  | vectorTypeMismatch
  | idTypeMismatch
  | unknownSearchType (received : String)

/-- The HTTP status attached to each validation failure: every branch of
the handler calls `res.status(400)`. -/
def TranslateError.httpStatus : TranslateError → Nat
  | _ => 400

/-- The `query` sub-object of the provider payload (`part_000` lines
105-108, 119-122, 133-136). -/
inductive QueryObj where
  | textQ (text : String) (top_k : Int)
  | vectorQ (values : List JSValue) (top_k : Int)
  | idQ (id : String) (top_k : Int)

/-- The `top_k` carried inside the `query` sub-object. -/
def QueryObj.topK : QueryObj → Int
  | .textQ _ k => k
  | .vectorQ _ k => k
  | .idQ _ k => k

/-- The `inputs.text` of a text query sub-object, if any. -/
def QueryObj.inputsText : QueryObj → Option String
  | .textQ t _ => some t
  | _ => none

/-- The `rerank` sub-object attached to the provider payload
(`part_000` lines 148-157). -/
structure RerankObj where
  model : String
  top_n : Int
  rank_fields : List String
  query : Option JSValue

/-- The provider payload built by the handler (`part_000` lines 81-158).
`fields`/`filter` are `none` when the corresponding `if` on lines 86-93
did not attach them. -/
structure ProviderPayload where
  top_k : Int
  fields : Option (List String)
  filter : Option (List (String × JSValue))
  query : QueryObj
  rerank : Option RerankObj

/-- JS `s || d` for an optional string: the default fires when the value
is absent or falsy (the empty string). -/
def jsOrStr : Option String → String → String
  | some s, d => if s = "" then d else s
  | none, d => d

/-- JS `n || d` for an optional number: the default fires when the value
is absent or falsy (`0`). -/
def jsOrInt : Option Int → Int → Int
  | some n, d => if n = 0 then d else n
  | none, d => d

/-- The guard `rerank && rerank.model` of `part_000` line 147:
`rerank` non-null and `rerank.model` truthy. -/
def rerankRequested : Option RerankSpec → Bool
  | some r =>
      match r.model with
      | some m => decide (m ≠ "")
      | none => false
  | none => false

/-- `rerank.query` when truthy, `none` otherwise (`part_000` line 155). -/
def truthyRerankQuery : Option JSValue → Option JSValue
  | some v => if isTruthy v then some v else none
  | none => none

/-- The rerank block of `part_000` lines 146-158: when
`rerank && rerank.model`, build the sub-object with the source's `||`
defaults, and include `rerank.query` verbatim exactly when the search
type is not `text` and `rerank.query` is truthy. -/
def buildRerank (search_type : String) (top_k : Int) (fields : List String) :
    Option RerankSpec → Option RerankObj
  | none => none
  | some r =>
      if rerankRequested (some r) then
        some { model := jsOrStr r.model "bge-reranker-v2-m3"
               top_n := jsOrInt r.top_n (min top_k 100)
               rank_fields := r.rank_fields.getD fields
               query :=
                 if search_type ≠ "text" then truthyRerankQuery r.query
                 else none }
      else none

/-- The `switch (search_type)` of `part_000` lines 96-144, producing the
`query` sub-object or the branch's validation error. -/
def queryFor (search_type : String) (q : JSValue) (topK : Int) :
    Except TranslateError QueryObj :=
  if search_type = "text" then
    match q with
    | .str s => .ok (.textQ s topK)
    | _ => .error .textTypeMismatch
  else if search_type = "vector" then
    match q with
    | .arr xs =>
        if xs.any (fun v => !(isNumberJS v)) then .error .vectorTypeMismatch
        else .ok (.vectorQ xs topK)
    | _ => .error .vectorTypeMismatch
  else if search_type = "id" then
    match q with
    | .str s => .ok (.idQ s topK)
    | _ => .error .idTypeMismatch
  else
    .error (.unknownSearchType search_type)

/-- The vector-branch rejection test of `part_000` line 113:
`!Array.isArray(query) || query.some(v => typeof v !== 'number')`. -/
def vectorQueryInvalid : JSValue → Bool
  | .arr xs => xs.any (fun v => !(isNumberJS v))
  | _ => true

/-- The `/pinecone-query` handler body from the `if (!query)` check to
the finished provider payload (`part_000` lines 65-158).  A provider
HTTP call (`axios.post`, line 163) is made exactly when the result is
`.ok`; every `.error` is returned to the client with status 400 before
any call. -/
def translateRequest (req : SearchRequest) : Except TranslateError ProviderPayload :=
  if isTruthy req.query = false then
    .error .queryRequired
  else
    match queryFor req.search_type req.query (min req.top_k 10000) with
    | .error e => .error e
    | .ok q =>
        .ok { top_k := min req.top_k 10000
              fields := if req.fields.isEmpty then none else some req.fields
              filter := if req.filters.isEmpty then none else some req.filters
              query := q
              rerank := buildRerank req.search_type req.top_k req.fields req.rerank }

/-- The `metadata` block attached to a successful response
(`part_000` lines 176-186).  `timestamp` is outside the model. -/
structure ResponseMetadata where
  search_type : String
  nspace : String
  top_k : Int
  total_results : Nat
  has_reranking : Bool

/-- `searchResults.result?.hits?.length || 0` (`part_000` line 182). -/
def hitsCount (data : JSValue) : Nat :=
  match (data.getField "result").bind (fun r => r.getField "hits") with
  | some (.arr l) => l.length
  | _ => 0

/-- The metadata construction of `part_000` lines 176-186:
`has_reranking: !!rerank`, `top_k` echoes the raw request value. -/
def buildMetadata (req : SearchRequest) (data : JSValue) : ResponseMetadata :=
  { search_type := req.search_type
    nspace := req.nspace
    top_k := req.top_k
    total_results := hitsCount data
    has_reranking := req.rerank.isSome }

/-- The ordered candidate-name loop of `part_003` lines 169-175 and
178-188: walk the list, return the first name whose environment value is
truthy (set and non-empty) together with that value; `none` when no
candidate matches. -/
def resolveFirst (env : String → Option String) : List String → Option (String × String)
  | [] => none
  | n :: rest =>
      match env n with
      | some v => if v = "" then resolveFirst env rest else some (n, v)
      | none => resolveFirst env rest

/-- The host clean-up of `part_003` lines 182-184 (also `part_002` lines
257-259): `host.replace('https://', '')` under a `startsWith('https://')`
guard.  JS `replace` with a string pattern replaces only the first
occurrence, which under the guard is the leading 8 characters; the
`startsWith` test and the removal are modelled on the character list. -/
def normalizeHost (h : String) : String :=
  if "https://".data.isPrefixOf h.data then String.mk (h.data.drop 8) else h

/-- An axios HTTP response as observed in the handler: `status`,
`statusText` and the parsed body `data`. -/
structure AxiosResponse where
  status : Nat
  statusText : String
  data : JSValue

/-- An axios failure as observed in the catch blocks: `error.response`
is present when the provider answered with an HTTP error status;
`error.code` carries connection-level codes (`ENOTFOUND`,
`ECONNREFUSED`, `ECONNABORTED`); `error.message` is always present. -/
structure AxiosError where
  response : Option AxiosResponse
  code : Option String
  message : String

/-- The JSON error body sent back to the client, paired with the HTTP
status chosen by the catch block. -/
structure ErrorReply where
  status : Nat
  error : String
  details : Option JSValue
  code : Option String
  message : Option String

/-- The catch block of `part_000` lines 192-225 (same shape in
`part_001` lines 320-352): a structured provider error propagates its
status verbatim with the provider body under `details`; `ENOTFOUND` /
`ECONNREFUSED` map to 503; everything else falls to the generic 500.
There is no timeout branch in this revision. -/
def mapPineconeErrorV1 (e : AxiosError) : ErrorReply :=
  match e.response with
  | some r =>
      { status := r.status
        error := "Pinecone API error"
        details := some r.data
        code := none
        message := none }
  | none =>
      if e.code = some "ENOTFOUND" ∨ e.code = some "ECONNREFUSED" then
        { status := 503
          error := "Unable to connect to Pinecone API"
          details := some (.str "Please check your PINECONE_INDEX_HOST configuration")
          code := e.code
          message := none }
      else
        { status := 500
          error := "Internal server error during Pinecone query"
          details := none
          code := none
          message := some e.message }

/-- The catch block of `part_002` lines 446-495, which inserts an
`ECONNABORTED` → 504 timeout branch between the connection branch and
the generic 500. -/
def mapPineconeErrorV2 (e : AxiosError) : ErrorReply :=
  match e.response with
  | some r =>
      { status := r.status
        error := "Pinecone API error"
        details := some r.data
        code := none
        message := none }
  | none =>
      if e.code = some "ENOTFOUND" ∨ e.code = some "ECONNREFUSED" then
        { status := 503
          error := "Unable to connect to Pinecone API"
          details := some (.str "Please check your PINECONE_INDEX_HOST configuration")
          code := e.code
          message := none }
      else if e.code = some "ECONNABORTED" then
        { status := 504
          error := "Pinecone API timeout"
          details := some (.str "Request took longer than 30 seconds")
          code := e.code
          message := none }
      else
        { status := 500
          error := "Internal server error during Pinecone query"
          details := none
          code := none
          message := some e.message }

/-- The axios `timeout` option of every `/pinecone-query` provider call
(`part_000` line 169, `part_001` line 290, `part_002` line 413), in
milliseconds. -/
def pineconeQueryTimeoutMs : Nat := 30000

/-- The axios `timeout` option of the lightweight diagnostic calls in
`app.get('/test-namespaces')` (`part_002` line 529), in milliseconds. -/
def testNamespacesTimeoutMs : Nat := 10000

/-- The fixed namespace list iterated by `app.get('/test-namespaces')`
(`part_002` line 510). -/
def testNamespacesList : List String :=
  ["__default__", "key_learnings", "challenges", "initiatives"]

/-- One per-namespace entry of the `/test-namespaces` response
(`part_002` lines 532-545).  The `url` echo fields are outside the
model. -/
inductive NsStatus where
  | success (result_count : Nat)
  | failure (message : String) (response_status : Option Nat)
      (response_data : Option JSValue)

/-- The body of one loop iteration of `/test-namespaces`: the `try`
records a success with `response.data?.result?.hits?.length || 0`, the
`catch` records the failure's message, and the optional
`error.response?.status` / `error.response?.data`. -/
def nsStatusOf (call : String → Except AxiosError AxiosResponse)
    (ns : String) : NsStatus :=
  match call ns with
  | .ok resp => .success (hitsCount resp.data)
  | .error e =>
      .failure e.message (e.response.map (fun r => r.status))
        (e.response.map (fun r => r.data))

/-- The `for (const namespace of namespaces)` loop of `part_002` lines
512-546, accumulating `testResults[namespace] = ...` one namespace
after the other; each iteration's `try/catch` is independent, so an
error entry is recorded and the loop continues. -/
def runNamespaceTests (call : String → Except AxiosError AxiosResponse) :
    List String → List (String × NsStatus)
  | [] => []
  | ns :: rest =>
      (ns,
        match call ns with
        | .ok resp => NsStatus.success (hitsCount resp.data)
        | .error e =>
            NsStatus.failure e.message (e.response.map (fun r => r.status))
              (e.response.map (fun r => r.data))) :: runNamespaceTests call rest

/-- Concrete vector request with a falsy, non-array `query` (`0`). -/
def cexVectorReq : SearchRequest := { query := .num 0, search_type := "vector" }

/-- Concrete vector request whose `query` array holds a non-numeric
element. -/
def badVectorReq : SearchRequest :=
  { query := .arr [.num 1, .str "x"], search_type := "vector" }

/-- Concrete environment binding only the second and third candidate
names. -/
def envOnlyBC : String → Option String := fun n =>
  if n = "CAND_B" then some "value-b"
  else if n = "CAND_C" then some "value-c"
  else none

/-- Concrete structured provider failure: a 422 whose body is
`{message: "bad filter"}`. -/
def err422 : AxiosError :=
  { response := some { status := 422
                       statusText := "Unprocessable Entity"
                       data := .obj [("message", .str "bad filter")] }
    code := none
    message := "Request failed with status code 422" }

/-- Concrete axios timeout failure: no `response`, code `ECONNABORTED`. -/
def timeoutErr : AxiosError :=
  { response := none
    code := some "ECONNABORTED"
    message := "timeout of 30000ms exceeded" }

/-- Concrete id-search request with a rerank spec that sets `model` and
`query` but leaves `top_n` and `rank_fields` to their defaults. -/
def rerankReq : SearchRequest :=
  { query := .str "doc-42"
    search_type := "id"
    top_k := 500
    fields := ["title"]
    rerank := some { model := some "bge-reranker-base"
                     top_n := none
                     rank_fields := none
                     query := some (.str "alt query") } }

/-- The payload the handler builds for `rerankReq`. -/
def rerankReqPayload : ProviderPayload :=
  { top_k := 500
    fields := some ["title"]
    filter := none
    query := .idQ "doc-42" 500
    rerank := some { model := "bge-reranker-base"
                     top_n := 100
                     rank_fields := ["title"]
                     query := some (.str "alt query") } }

/-- Concrete request whose `rerank` is non-null but has no `model`, with
`top_k` above the provider maximum. -/
def metadataReq : SearchRequest :=
  { query := .str "hello"
    top_k := 20000
    rerank := some { model := none, top_n := none, rank_fields := none, query := none }
    search_type := "text" }

/-- Concrete provider oracle that fails on the `challenges` namespace
with a structured 404 and succeeds with one hit elsewhere. -/
def oneFailingCall : String → Except AxiosError AxiosResponse := fun ns =>
  if ns = "challenges" then
    .error { response := some { status := 404
                                statusText := "Not Found"
                                data := .obj [("error", .str "namespace not found")] }
             code := none
             message := "Request failed with status code 404" }
  else
    .ok { status := 200
          statusText := "OK"
          data := .obj [("result", .obj [("hits", .arr [.obj []])])] }

/-- Helper: a successful translation carries exactly the rerank
sub-object built by `buildRerank` from the request. -/
theorem translateRequest_rerank (req : SearchRequest) (p : ProviderPayload)
    (hp : translateRequest req = .ok p) :
    p.rerank = buildRerank req.search_type req.top_k req.fields req.rerank := by
  unfold translateRequest at hp
  split at hp
  · exact absurd hp (by simp)
  · split at hp
    · exact absurd hp (by simp)
    · injection hp with h
      subst h
      rfl

/-- Helper: the `/test-namespaces` loop computes, for each namespace of
the list in order, the entry determined solely by that namespace's own
call outcome. -/
theorem runNamespaceTests_eq_map (call : String → Except AxiosError AxiosResponse)
    (l : List String) :
    runNamespaceTests call l = l.map (fun ns => (ns, nsStatusOf call ns)) := by
  induction l with
  | nil => rfl
  | cons ns rest ih => simp [runNamespaceTests, nsStatusOf, ih]

/-- C1: for every valid text-search request (string query, search_type
`text`), the translated payload's `query.inputs.text` equals the input
query string and `query.top_k = min(top_k, 10000)`; in particular, for
`top_k > 10000` the effective `top_k` sent to the provider is exactly
10000. -/
theorem text_translation_query_and_topk (req : SearchRequest) (s : String)
    (hst : req.search_type = "text") (hq : req.query = .str s) (hs : s ≠ "") :
    ∃ p : ProviderPayload,
      translateRequest req = .ok p
      ∧ p.query.inputsText = some s
      ∧ p.query.topK = min req.top_k 10000
      ∧ (10000 < req.top_k → p.query.topK = 10000) := by
  refine ⟨{ top_k := min req.top_k 10000
            fields := if req.fields.isEmpty then none else some req.fields
            filter := if req.filters.isEmpty then none else some req.filters
            query := .textQ s (min req.top_k 10000)
            rerank := buildRerank req.search_type req.top_k req.fields req.rerank },
          ?_, rfl, rfl, ?_⟩
  · unfold translateRequest
    rw [hq, hst]
    simp [isTruthy, hs, queryFor]
  · intro h
    simp only [QueryObj.topK]
    omega

/-- C1 witness: the theorem applied to the request
`{query: "find docs", search_type: "text", top_k: 20000}`. -/
theorem text_translation_query_and_topk_witness :
    ∃ p : ProviderPayload,
      translateRequest { query := .str "find docs", top_k := 20000, search_type := "text" } = .ok p
      ∧ p.query.inputsText = some "find docs"
      ∧ p.query.topK = min 20000 10000
      ∧ (10000 < (20000 : Int) → p.query.topK = 10000) :=
  text_translation_query_and_topk
    { query := .str "find docs", top_k := 20000, search_type := "text" }
    "find docs" rfl rfl (by decide)

/-- C9: a falsy `query` (missing, empty string, `0`) is rejected with
the missing-query error before `search_type` is inspected, and the
unknown-search_type error is only reachable when `query` is truthy. -/
theorem missing_query_checked_before_search_type (req : SearchRequest) :
    (isTruthy req.query = false → translateRequest req = .error .queryRequired)
    ∧ (∀ r, translateRequest req = .error (.unknownSearchType r) →
        isTruthy req.query = true) := by
  constructor
  · intro h
    simp [translateRequest, h]
  · intro r h
    by_contra hc
    simp only [Bool.not_eq_true] at hc
    simp [translateRequest, hc] at h

/-- C9 witness: a request with a missing query and an invalid
search_type gets the missing-query error, and an id search for the
empty string is rejected the same way. -/
theorem missing_query_checked_before_search_type_witness :
    translateRequest { query := .undefined, search_type := "bogus" } = .error .queryRequired
    ∧ translateRequest { query := .str "", search_type := "id" } = .error .queryRequired :=
  ⟨(missing_query_checked_before_search_type
      { query := .undefined, search_type := "bogus" }).1 rfl,
   (missing_query_checked_before_search_type
      { query := .str "", search_type := "id" }).1 rfl⟩

/-- C3 counterexample: the vector request `{query: 0, search_type:
"vector"}` has a query that is not an array of numbers, yet translation
fails with the missing-query error, not the type-mismatch one. -/
theorem vector_falsy_query_not_type_mismatch :
    cexVectorReq.search_type = "vector"
    ∧ vectorQueryInvalid cexVectorReq.query = true
    ∧ translateRequest cexVectorReq = .error .queryRequired
    ∧ translateRequest cexVectorReq ≠ .error .vectorTypeMismatch := by
  refine ⟨rfl, rfl, rfl, ?_⟩
  intro h
  rw [show translateRequest cexVectorReq = .error .queryRequired from rfl] at h
  simp at h

/-- C3 amended: for every vector-search request whose query is truthy
and is not an array of numbers, translation fails with the
type-mismatch validation error (HTTP 400) and no provider call is made
(a falsy query instead fails earlier with the missing-query 400). -/
theorem vector_invalid_query_type_mismatch (req : SearchRequest)
    (hst : req.search_type = "vector") (htr : isTruthy req.query = true)
    (hinv : vectorQueryInvalid req.query = true) :
    translateRequest req = .error .vectorTypeMismatch
    ∧ TranslateError.vectorTypeMismatch.httpStatus = 400
    ∧ ∀ p : ProviderPayload, translateRequest req ≠ .ok p := by
  have h1 : queryFor req.search_type req.query (min req.top_k 10000) =
      .error .vectorTypeMismatch := by
    rw [hst]
    cases hq : req.query with
    | arr xs =>
        rw [hq] at hinv
        simp only [vectorQueryInvalid] at hinv
        simp [queryFor, hinv]
    | _ => simp [queryFor]
  have h2 : translateRequest req = .error .vectorTypeMismatch := by
    simp [translateRequest, htr, h1]
  exact ⟨h2, rfl, fun p hp => by rw [h2] at hp; simp at hp⟩

/-- C3 amended witness: the theorem applied to
`{query: [1, "x"], search_type: "vector"}`. -/
theorem vector_invalid_query_type_mismatch_witness :
    translateRequest badVectorReq = .error .vectorTypeMismatch
    ∧ TranslateError.vectorTypeMismatch.httpStatus = 400
    ∧ ∀ p : ProviderPayload, translateRequest badVectorReq ≠ .ok p :=
  vector_invalid_query_type_mismatch badVectorReq rfl rfl rfl

/-- C2: configuration resolution is order-deterministic: for every
ordered candidate-name list and environment, the resolver skips every
earlier candidate with no non-empty binding and returns the value of
the first candidate bound to a non-empty value, reporting that name as
the source. -/
theorem resolver_first_nonempty_wins (env : String → Option String)
    (pre : List String) (n : String) (post : List String) (v : String)
    (hpre : ∀ m ∈ pre, (env m).getD "" = "")
    (hn : env n = some v) (hv : v ≠ "") :
    resolveFirst env (pre ++ n :: post) = some (n, v) := by
  induction pre with
  | nil =>
      simp only [List.nil_append, resolveFirst, hn]
      simp [hv]
  | cons m rest ih =>
      have hm : (env m).getD "" = "" := hpre m (by simp)
      have hrest : ∀ m' ∈ rest, (env m').getD "" = "" :=
        fun m' hm' => hpre m' (by simp [hm'])
      simp only [List.cons_append, resolveFirst]
      cases he : env m with
      | none => exact ih hrest
      | some w =>
          have hw : w = "" := by simpa [he] using hm
          simp [hw, ih hrest]

/-- C2 witness: with candidates `[CAND_A, CAND_B, CAND_C]` and only
`CAND_B` and `CAND_C` set, the resolver returns `CAND_B`'s value and
reports source `CAND_B`. -/
theorem resolver_first_nonempty_wins_witness :
    resolveFirst envOnlyBC ["CAND_A", "CAND_B", "CAND_C"] = some ("CAND_B", "value-b") :=
  resolver_first_nonempty_wins envOnlyBC ["CAND_A"] "CAND_B" ["CAND_C"] "value-b"
    (by intro m hm; rw [List.mem_singleton] at hm; subst hm; rfl)
    rfl (by decide)

/-- C4: host normalization strips a leading `https://` exactly once and
does not recurse: `https://example.io` becomes `example.io`, a host
without the prefix is unchanged, and `https://https://example.io`
becomes `https://example.io`. -/
theorem host_normalization_strips_once :
    normalizeHost "https://example.io" = "example.io"
    ∧ (∀ h : String, "https://".data.isPrefixOf h.data = false → normalizeHost h = h)
    ∧ normalizeHost "https://https://example.io" = "https://example.io" := by
  refine ⟨by decide, ?_, by decide⟩
  intro h hns
  simp [normalizeHost, hns]

/-- C4 witness: the unchanged-host case applied to `example.io`. -/
theorem host_normalization_strips_once_witness :
    normalizeHost "example.io" = "example.io" :=
  host_normalization_strips_once.2.1 "example.io" (by decide)

/-- C5: a provider failure carrying a structured HTTP error is sent to
the client with the provider's status code verbatim and the provider's
error body embedded under `details`. -/
theorem provider_error_propagates_status_and_details (e : AxiosError)
    (r : AxiosResponse) (hr : e.response = some r) :
    (mapPineconeErrorV1 e).status = r.status
    ∧ (mapPineconeErrorV1 e).details = some r.data := by
  simp [mapPineconeErrorV1, hr]

/-- C5 witness: a provider 422 with body `{message: "bad filter"}`
yields a client 422 whose `details.message` is `"bad filter"`. -/
theorem provider_error_propagates_status_and_details_witness :
    (mapPineconeErrorV1 err422).status = 422
    ∧ ((mapPineconeErrorV1 err422).details.bind
        (fun d => d.getField "message")) = some (.str "bad filter") := by
  have h := provider_error_propagates_status_and_details err422 _ rfl
  exact ⟨h.1, by rw [h.2]; rfl⟩

/-- C6 counterexample: in the revision of the catch block without a
timeout branch (`part_000` lines 192-225), an axios timeout (code
`ECONNABORTED`, no structured response) is mapped to the generic 500,
not to 504. -/
theorem v1_timeout_maps_to_generic_500 :
    (mapPineconeErrorV1 timeoutErr).status = 500
    ∧ (mapPineconeErrorV1 timeoutErr).status ≠ 504 := by
  refine ⟨by decide, by decide⟩

/-- C6 amended: in the revision whose catch block has the `ECONNABORTED`
branch (`part_002` lines 482-488), every timeout failure is mapped to
HTTP 504 and never to the generic 500; provider calls are configured
with a 30-second timeout and the lightweight diagnostic calls with 10
seconds.  In the earlier revisions (`part_000`, `part_001`) the catch
block has no timeout branch and a timeout falls to the generic 500. -/
theorem v2_timeout_maps_to_504 (e : AxiosError)
    (hr : e.response = none) (hc : e.code = some "ECONNABORTED") :
    (mapPineconeErrorV2 e).status = 504
    ∧ (mapPineconeErrorV2 e).status ≠ 500
    ∧ pineconeQueryTimeoutMs = 30000
    ∧ testNamespacesTimeoutMs = 10000 := by
  have h : mapPineconeErrorV2 e =
      { status := 504
        error := "Pinecone API timeout"
        details := some (.str "Request took longer than 30 seconds")
        code := e.code
        message := none } := by
    simp [mapPineconeErrorV2, hr, hc]
  rw [h]
  exact ⟨rfl, by simp, rfl, rfl⟩

/-- C6 amended witness: the theorem applied to a concrete
`ECONNABORTED` failure. -/
theorem v2_timeout_maps_to_504_witness :
    (mapPineconeErrorV2 timeoutErr).status = 504
    ∧ (mapPineconeErrorV2 timeoutErr).status ≠ 500
    ∧ pineconeQueryTimeoutMs = 30000
    ∧ testNamespacesTimeoutMs = 10000 :=
  v2_timeout_maps_to_504 timeoutErr rfl rfl

/-- C7: whenever `rerank` is present with a set `model`, the payload of
a successful translation gains a rerank sub-object whose `model` is the
supplied one (the fixed fallback name of the source's `||` never fires
under the guard), whose `top_n` falls back to `min(top_k, 100)` when
unsupplied, whose `rank_fields` falls back to the request's `fields`,
and whose `query` is included verbatim exactly when the search type is
not `text` and `rerank.query` is truthy; when `rerank` is absent or its
`model` is unset, no rerank sub-object is attached. -/
theorem rerank_block_defaults (req : SearchRequest) (p : ProviderPayload)
    (hp : translateRequest req = .ok p) :
    (∀ (r : RerankSpec) (m : String), req.rerank = some r → r.model = some m → m ≠ "" →
      p.rerank = some { model := m
                        top_n := jsOrInt r.top_n (min req.top_k 100)
                        rank_fields := r.rank_fields.getD req.fields
                        query := if req.search_type ≠ "text" then truthyRerankQuery r.query
                                 else none })
    ∧ (rerankRequested req.rerank = false → p.rerank = none) := by
  have hre := translateRequest_rerank req p hp
  constructor
  · intro r m hr hm hmne
    rw [hre, hr]
    simp [buildRerank, rerankRequested, hm, hmne, jsOrStr]
  · intro hfalse
    rw [hre]
    cases hr : req.rerank with
    | none => rfl
    | some r =>
        rw [hr] at hfalse
        simp [buildRerank, hfalse]

/-- C7 witness: the theorem applied to an id search with `top_k = 500`,
`fields = ["title"]` and a rerank spec supplying only `model` and
`query`: the sub-object defaults `top_n` to `min(500, 100) = 100` and
`rank_fields` to `["title"]`, and includes the rerank query verbatim. -/
theorem rerank_block_defaults_witness :
    translateRequest rerankReq = .ok rerankReqPayload
    ∧ rerankReqPayload.rerank = some { model := "bge-reranker-base"
                                       top_n := 100
                                       rank_fields := ["title"]
                                       query := some (.str "alt query") } := by
  refine ⟨rfl, ?_⟩
  have h := (rerank_block_defaults rerankReq rerankReqPayload rfl).1
    { model := some "bge-reranker-base", top_n := none, rank_fields := none,
      query := some (.str "alt query") }
    "bge-reranker-base" rfl rfl (by decide)
  rw [h]
  rfl

/-- C8: the diagnostic namespace-iteration endpoint produces, for each
namespace of the fixed list in order, one entry determined solely by
that namespace's own call outcome, so one namespace's failure does not
abort the others and every namespace has a per-namespace status entry;
concretely, with a call failing on `challenges`, all four entries are
present and the other three still succeed. -/
theorem namespace_tests_aggregate_independently
    (call : String → Except AxiosError AxiosResponse) :
    runNamespaceTests call testNamespacesList =
      testNamespacesList.map (fun ns => (ns, nsStatusOf call ns))
    ∧ (runNamespaceTests call testNamespacesList).map Prod.fst = testNamespacesList
    ∧ runNamespaceTests oneFailingCall testNamespacesList =
        [("__default__", .success 1),
         ("key_learnings", .success 1),
         ("challenges", .failure "Request failed with status code 404" (some 404)
            (some (.obj [("error", .str "namespace not found")]))),
         ("initiatives", .success 1)] := by
  refine ⟨runNamespaceTests_eq_map call testNamespacesList, ?_, rfl⟩
  rw [runNamespaceTests_eq_map call testNamespacesList]
  rfl

/-- C10: in every successful response, `metadata.has_reranking` is true
exactly when the request's `rerank` field is non-null — even when
`rerank.model` is unset and no rerank sub-object was sent — and
`metadata.top_k` echoes the raw request `top_k` unclamped, exceeding
the clamped value the provider received when `top_k > 10000`. -/
theorem metadata_echoes_raw_request :
    (∀ (req : SearchRequest) (data : JSValue),
      (buildMetadata req data).has_reranking = req.rerank.isSome
      ∧ (buildMetadata req data).top_k = req.top_k)
    ∧ (buildMetadata metadataReq (.obj [])).has_reranking = true
    ∧ rerankRequested metadataReq.rerank = false
    ∧ translateRequest metadataReq =
        .ok { top_k := 10000
              fields := none
              filter := none
              query := .textQ "hello" 10000
              rerank := none }
    ∧ (buildMetadata metadataReq (.obj [])).top_k = 20000
    ∧ (QueryObj.textQ "hello" 10000).topK = 10000 :=
  ⟨fun _ _ => ⟨rfl, rfl⟩, rfl, rfl, rfl, rfl, rfl⟩
